import Mathlib

/-!
Verification development for the card-recommendation engine
(`backend/services/card_optimizer.py`, `backend/services/claude_service.py`,
`backend/services/fallback_responses.py`, `backend/database/database.py`).

Numbers are modelled as rationals; Python's `round(x, 2)` is modelled by
`round2` (round half up at the second decimal; no claim below depends on the
behaviour at exact .005 ties).  Strings are modelled as `String` / `List Char`;
the two regular expressions used by the code are hand-compiled into structural
scanners (`searchNumber`, `searchPct`, `searchMult`, `amountScan`) that follow
Python `re.search` semantics (leftmost match, greedy, with the word-boundary
rules of `\b`).
-/

set_option allowUnsafeReducibility true

attribute [semireducible] Rat.add Rat.mul Rat.sub Rat.div Rat.neg Rat.inv Rat.blt Rat.ofScientific

/-- Python `round(x, 2)` modelled on rationals. -/
def round2 (x : ℚ) : ℚ := (round (x * 100) : ℚ) / 100

/-- Python regex `\w` (word character) on the ASCII strings used here. -/
def isWordChar (c : Char) : Bool := c.isAlphanum || c == '_'

/-- Python regex `\s` (whitespace) on the ASCII strings used here. -/
def isSpaceChar (c : Char) : Bool :=
  c == ' ' || c == '\t' || c == '\n' || c == '\r' || c == '\x0b' || c == '\x0c'

/-- Numeric value of a list of decimal digit characters. -/
def digitsVal (ds : List Char) : ℕ :=
  ds.foldl (fun n c => 10 * n + (c.toNat - '0'.toNat)) 0

/-- Value of a fractional digit string (digits after a decimal dot). -/
def fracVal (ds : List Char) : ℚ :=
  (digitsVal ds : ℚ) / ((10 : ℚ) ^ ds.length)

/-- Parse `\d+(\.\d+)?` anchored at the start of the character list
(greedy, the dot is consumed only when at least one digit follows it),
returning the numeric value and the rest of the input. -/
def numberAt (cs : List Char) : Option (ℚ × List Char) :=
  let p := cs.span Char.isDigit
  if p.1.isEmpty then none
  else
    match p.2 with
    | '.' :: r2 =>
      let q := r2.span Char.isDigit
      if q.1.isEmpty then some ((digitsVal p.1 : ℚ), p.2)
      else some ((digitsVal p.1 : ℚ) + fracVal q.1, q.2)
    | _ => some ((digitsVal p.1 : ℚ), p.2)

/-- Python `re.search(r'(\d+(?:\.\d+)?)', s)`: value of the leftmost number. -/
def searchNumber : List Char → Option ℚ
  | [] => none
  | c :: rest =>
    match numberAt (c :: rest) with
    | some (v, _) => some v
    | none => searchNumber rest

/-- Attempt `(\d+(?:\.\d+)?)\s*%\b` at the start of the input.  After the
non-word character `%` the boundary `\b` holds iff the next character exists
and is a word character. -/
def pctAt (cs : List Char) : Option ℚ :=
  match numberAt cs with
  | none => none
  | some (v, r) =>
    match r.dropWhile isSpaceChar with
    | '%' :: r3 =>
      match r3 with
      | c :: _ => if isWordChar c then some v else none
      | [] => none
    | _ => none

/-- Attempt `(\d+(?:\.\d+)?)\s*x\b` at the start of the input.  After the word
character `x` the boundary `\b` holds iff the input ends or the next character
is not a word character. -/
def multAt (cs : List Char) : Option ℚ :=
  match numberAt cs with
  | none => none
  | some (v, r) =>
    match r.dropWhile isSpaceChar with
    | 'x' :: r3 =>
      match r3 with
      | c :: _ => if isWordChar c then none else some v
      | [] => some v
    | _ => none

/-- Python `re.search(r'(\d+(?:\.\d+)?)\s*%\b', s)`. -/
def searchPct : List Char → Option ℚ
  | [] => none
  | c :: rest =>
    match pctAt (c :: rest) with
    | some v => some v
    | none => searchPct rest

/-- Python `re.search(r'(\d+(?:\.\d+)?)\s*x\b', s)`. -/
def searchMult : List Char → Option ℚ
  | [] => none
  | c :: rest =>
    match multAt (c :: rest) with
    | some v => some v
    | none => searchMult rest

/-- Does `pat` occur at the start of the input? -/
def tokAt : List Char → List Char → Bool
  | [], _ => true
  | _ :: _, [] => false
  | p :: ps, c :: cs => p == c && tokAt ps cs

/-- Python `pat in s` (substring containment). -/
def containsTok (pat : List Char) : List Char → Bool
  | [] => pat.isEmpty
  | c :: rest => tokAt pat (c :: rest) || containsTok pat rest

/-- Python `s.lower()` followed by viewing the string as characters. -/
def lower (s : String) : List Char := s.toList.map Char.toLower

/- ### A stable descending sort, modelling Python's `list.sort(key=..., reverse=True)`.

Python's sort is stable; with `reverse=True` it orders by key descending and
keeps the original relative order of equal keys.  A stable sort is determined
extensionally by that specification, so the insertion sort below is a faithful
model. -/

/-- Insert `a` in front of the first element whose key is `≤ key a`. -/
def insertDesc {α : Type} (key : α → ℚ) (a : α) : List α → List α
  | [] => [a]
  | b :: l => if key b ≤ key a then a :: b :: l else b :: insertDesc key a l

/-- Stable sort, descending by `key`. -/
def sortDesc {α : Type} (key : α → ℚ) : List α → List α
  | [] => []
  | b :: l => insertDesc key b (sortDesc key l)

theorem insertDesc_perm {α : Type} (key : α → ℚ) (a : α) :
    ∀ l : List α, List.Perm (insertDesc key a l) (a :: l)
  | [] => List.Perm.refl _
  | b :: l => by
    by_cases h : key b ≤ key a
    · simp [insertDesc, h]
    · simp only [insertDesc, if_neg h]
      exact ((insertDesc_perm key a l).cons b).trans (List.Perm.swap a b l)

theorem sortDesc_perm {α : Type} (key : α → ℚ) :
    ∀ l : List α, List.Perm (sortDesc key l) l
  | [] => List.Perm.refl _
  | b :: l => (insertDesc_perm key b (sortDesc key l)).trans ((sortDesc_perm key l).cons b)

theorem mem_insertDesc {α : Type} (key : α → ℚ) {a c : α} {l : List α} :
    c ∈ insertDesc key a l ↔ c = a ∨ c ∈ l := by
  simpa using (insertDesc_perm key a l).mem_iff

theorem insertDesc_pairwise {α : Type} (key : α → ℚ) {a : α} {l : List α}
    (h : l.Pairwise (fun x y => key y ≤ key x)) :
    (insertDesc key a l).Pairwise (fun x y => key y ≤ key x) := by
  induction l with
  | nil => simp [insertDesc]
  | cons b l ih =>
    rcases List.pairwise_cons.mp h with ⟨hb, hl⟩
    by_cases hba : key b ≤ key a
    · simp only [insertDesc, if_pos hba]
      refine List.pairwise_cons.mpr ⟨?_, h⟩
      intro c hc
      rcases List.mem_cons.mp hc with rfl | hc
      · exact hba
      · exact le_trans (hb c hc) hba
    · simp only [insertDesc, if_neg hba]
      refine List.pairwise_cons.mpr ⟨?_, ih hl⟩
      intro c hc
      rcases (mem_insertDesc key).mp hc with rfl | hc
      · exact le_of_not_le hba
      · exact hb c hc

theorem sortDesc_pairwise {α : Type} (key : α → ℚ) :
    ∀ l : List α, (sortDesc key l).Pairwise (fun x y => key y ≤ key x)
  | [] => List.Pairwise.nil
  | b :: l => insertDesc_pairwise key (sortDesc_pairwise key l)

theorem sublist_insertDesc {α : Type} (key : α → ℚ) (a : α) :
    ∀ l : List α, l.Sublist (insertDesc key a l)
  | [] => List.nil_sublist _
  | b :: l => by
    by_cases h : key b ≤ key a
    · simp only [insertDesc, if_pos h]
      exact (List.Sublist.refl _).cons a
    · simp only [insertDesc, if_neg h]
      exact (sublist_insertDesc key a l).cons₂ b

theorem cons_sublist_insertDesc {α : Type} (key : α → ℚ) {a : α} :
    ∀ (l : List α) {s : List α}, s.Sublist l → (∀ c ∈ s, key c ≤ key a) →
      (a :: s).Sublist (insertDesc key a l)
  | [], s, hs, _ => by
    have h0 : s = [] := List.sublist_nil.mp hs
    subst h0
    simp [insertDesc]
  | b :: l, s, hs, ha => by
    by_cases hba : key b ≤ key a
    · simp only [insertDesc, if_pos hba]
      exact hs.cons₂ a
    · simp only [insertDesc, if_neg hba]
      cases hs with
      | cons _ hsl => exact (cons_sublist_insertDesc key l hsl ha).cons b
      | cons₂ _ hsl => exact absurd (ha b (List.mem_cons_self b _)) hba

theorem sortDesc_stable {α : Type} (key : α → ℚ) {x y : α} :
    ∀ {l : List α}, List.Sublist [x, y] l → key y ≤ key x →
      List.Sublist [x, y] (sortDesc key l) := by
  intro l
  induction l with
  | nil => intro h _; cases List.sublist_nil.mp h
  | cons b l ih =>
    intro h hk
    cases h with
    | cons _ h2 => exact (ih h2 hk).trans (sublist_insertDesc key b _)
    | cons₂ _ h2 =>
      have hy : y ∈ sortDesc key l :=
        (sortDesc_perm key l).mem_iff.mpr (h2.subset (List.mem_cons_self y []))
      exact cons_sublist_insertDesc key (sortDesc key l)
        (List.singleton_sublist.mpr hy) (by simpa using hk)

theorem length_three_shape {α : Type} :
    ∀ {l : List α}, l.length = 3 → ∃ x y z, l = [x, y, z] := by
  intro l h
  rcases l with _ | ⟨x, _ | ⟨y, _ | ⟨z, _ | ⟨w, t⟩⟩⟩⟩ <;> simp_all

theorem sortDesc_three {α : Type} (key : α → ℚ) (a b c : α) :
    ∃ x y z, sortDesc key [a, b, c] = [x, y, z] :=
  length_three_shape ((sortDesc_perm key [a, b, c]).length_eq)

/- ### Data model -/

/-- A parsed transaction (`parse_transaction` / `_fallback_parse` output, as
consumed by the optimizer).  `original_query` is `""` when the field is absent
(the code reads it with `transaction.get('original_query', '')`). -/
structure Transaction where
  merchant : String
  amount : ℚ
  category : String
  original_query : String
deriving DecidableEq

/-- A discovered card candidate as consumed by `compare_cards`
(`card_info` dict; `category_rate` is `none` when the key is missing). -/
structure CardInfo where
  name : String
  category_rate : Option String
  annual_fee : ℚ
deriving DecidableEq

/-- One entry of the list returned by `compare_cards`. -/
structure Comparison where
  name : String
  reward_amount : ℚ
  reward_rate : Option String
  annual_fee : ℚ
  net_value : ℚ
deriving DecidableEq

/-- The parsed JSON `reward_structure` of a catalog card.  Optional fields
model `dict.get` defaults. -/
structure RewardStructure where
  default_rate : Option ℚ
  categories : List (String × ℚ)
  reward_type : Option String
  point_value : Option ℚ
deriving DecidableEq

/-- `reward_structure.get("categories", {}).get(category)`. -/
def categoryRate (rs : RewardStructure) (cat : String) : Option ℚ :=
  (rs.categories.find? (fun p => p.1 == cat)).map (fun p => p.2)

/-- A catalog card row.  `reward_structure` is `none` when the stored JSON is
malformed (the `json.loads` call raises and the caller's `except` absorbs it). -/
structure Card where
  id : String
  name : String
  issuer : String
  annual_fee : ℚ
  reward_structure : Option RewardStructure
  is_active : Bool
deriving DecidableEq

/- ### CardOptimizer.calculate_reward -/

/-- The points conversion step of `calculate_reward`: if
`reward_type == "points"`, multiply by `point_value` (default `0.01`). -/
def pointAdjust (rs : RewardStructure) (x : ℚ) : ℚ :=
  if rs.reward_type = some "points" then x * rs.point_value.getD (1 / 100) else x

/-- `CardOptimizer.calculate_reward`.  A `none` structure models any malformed
input: the Python body raises, the handler logs and returns `0.0`.  Note the
truthiness test `if category_rate:`: a stored category rate of `0` is falsy
and falls back to `default_rate`. -/
def calculate_reward (rs? : Option RewardStructure) (tx : Transaction) : ℚ :=
  match rs? with
  | none => 0
  | some rs =>
    let rate :=
      match categoryRate rs tx.category with
      | some r => if r = 0 then rs.default_rate.getD 1 else r
      | none => rs.default_rate.getD 1
    round2 (pointAdjust rs (tx.amount * (rate / 100)))

/- ### CardOptimizer.get_best_card_from_portfolio -/

/-- One iteration of the best-card loop: keep the running best, replace it
only on a strict improvement. -/
def bestStep (tx : Transaction) (acc : Option Card × ℚ) (card : Card) : Option Card × ℚ :=
  let reward := calculate_reward card.reward_structure tx
  if acc.2 < reward then (some card, reward) else acc

/-- `CardOptimizer.get_best_card_from_portfolio`: fold the strict-improvement
loop over the active cards, starting from `best_card = None`, `best_reward = 0`;
return `none` when no card was ever selected. -/
def get_best_card_from_portfolio (cards : List Card) (tx : Transaction) :
    Option (Card × ℚ) :=
  match (cards.filter (fun c => c.is_active)).foldl (bestStep tx) (none, 0) with
  | (some c, r) => some (c, r)
  | (none, _) => none

/- ### CardOptimizer.compare_cards -/

/-- The raw (unrounded) reward computed by `compare_cards` for one card: the
first numeric token of the rate string (default `2.0` when there is none) is a
points-per-dollar multiplier at 1.5 cents per point when the lowercased string
contains `point` or `mile`, and a percentage otherwise. -/
def compareRawReward (rate_str : String) (amount : ℚ) : ℚ :=
  let rate := (searchNumber rate_str.toList).getD 2
  if containsTok "point".toList (lower rate_str) || containsTok "mile".toList (lower rate_str)
  then amount * rate * (15 / 1000)
  else amount * (rate / 100)

/-- The comparison dict built by `compare_cards` for one candidate
(`rate_str = card_info.get("category_rate", "2%")`; `net_value` subtracts the
daily-amortized fee from the unrounded reward before rounding). -/
def compareEntry (tx : Transaction) (ci : CardInfo) : Comparison :=
  let raw := compareRawReward (ci.category_rate.getD "2%") tx.amount
  { name := ci.name
    reward_amount := round2 raw
    reward_rate := ci.category_rate
    annual_fee := ci.annual_fee
    net_value := round2 (raw - ci.annual_fee / 365) }

/-- `CardOptimizer.compare_cards`: build the entries, then
`comparisons.sort(key=lambda x: x["reward_amount"], reverse=True)` —
a stable sort descending by `reward_amount`. -/
def compare_cards (cards : List CardInfo) (tx : Transaction) : List Comparison :=
  sortDesc (fun c => c.reward_amount) (cards.map (compareEntry tx))

/- ### Frequency inference (identical keyword logic in
`calculate_financial_impact` and `analyze_and_recommend`) -/

/-- Recurrence detection on the lowercased original query: weekly, then
monthly, then daily, with the multiplier and display label. -/
def recurrence (q : String) : ℚ × String :=
  let ql := lower q
  if containsTok "every week".toList ql || containsTok "weekly".toList ql then
    (52, " (weekly purchases)")
  else if containsTok "every month".toList ql || containsTok "monthly".toList ql then
    (12, " (monthly purchases)")
  else if containsTok "every day".toList ql || containsTok "daily".toList ql then
    (365, " (daily purchases)")
  else (1, "")

/-- The frequency multiplier alone. -/
def inferFrequency (q : String) : ℚ := (recurrence q).1

/- ### CardOptimizer.calculate_financial_impact -/

/-- Two-decimal rendering of a non-negative hundredth count. -/
def fmt2Nat (n : ℕ) : String :=
  toString (n / 100) ++ "." ++
    (if n % 100 < 10 then "0" ++ toString (n % 100) else toString (n % 100))

/-- Python `f"{x:.2f}"` on rationals. -/
def fmtDollars2 (x : ℚ) : String :=
  let n := round (x * 100)
  if n < 0 then "-" ++ fmt2Nat (-n).toNat else fmt2Nat n.toNat

/-- Python `f"{x:.0f}"` on rationals. -/
def fmtInt (x : ℚ) : String := toString (round x)

/-- The `best_overall` entry as read by `calculate_financial_impact`
(only `reward_amount` and `annual_fee` are consulted). -/
structure FIEntry where
  reward_amount : ℚ
  annual_fee : ℚ
deriving DecidableEq

/-- The recommendation dict as read by `calculate_financial_impact`;
`best_overall := none` models a missing `best_overall` key. -/
structure FIRecommendation where
  best_overall : Option FIEntry
deriving DecidableEq

/-- The pair of strings returned by `calculate_financial_impact`. -/
structure ImpactOut where
  opportunity_cost : String
  annual_projection : String
deriving DecidableEq

/-- `CardOptimizer.calculate_financial_impact`.  A `none` recommendation
models the falsy (`None`/empty) case; the body never raises (all divisions are
guarded, and rational division by zero is zero anyway). -/
def calculate_financial_impact (tx : Transaction) (rec? : Option FIRecommendation) :
    ImpactOut :=
  match rec? with
  | none =>
    { opportunity_cost := "Unable to calculate without recommendation"
      annual_projection := "Analysis unavailable" }
  | some rec =>
    let reward_amount := match rec.best_overall with
      | some e => e.reward_amount
      | none => 0
    let amount := tx.amount
    let fr := recurrence tx.original_query
    let basic_reward := amount * (2 / 100)
    let opportunity_cost := max 0 (reward_amount - basic_reward)
    let annual_estimate := if fr.1 > 1 then amount * fr.1 else amount * 4 * 12
    let annual_fee := match rec.best_overall with
      | some e => e.annual_fee
      | none => 0
    let annual_rewards :=
      if fr.1 > 1 then reward_amount * fr.1
      else annual_estimate * (if amount > 0 then reward_amount / amount else 0)
    let net_annual_benefit := annual_rewards - annual_fee
    { opportunity_cost := "$" ++ fmtDollars2 opportunity_cost ++ " more than basic 2% card"
      annual_projection := "Could earn $" ++ fmtInt net_annual_benefit ++ "/year in " ++
        tx.category ++ " category" ++ fr.2 }

/- ### ClaudeService.analyze_and_recommend: consistency pass -/

/-- A recommendation entry as read by the post-processing passes of
`claude_service.py` (only name, reward and fee are consulted there). -/
structure AIEntry where
  name : String
  reward_amount : ℚ
  annual_fee : ℚ
deriving DecidableEq

/-- The annualized net value used by the consistency pass of
`analyze_and_recommend`: `reward × frequency − annual_fee` (the full fee is
subtracted at every frequency, including 1). -/
def annualNet (q : String) (e : AIEntry) : ℚ :=
  e.reward_amount * inferFrequency q - e.annual_fee

/-- The consistency pass of `analyze_and_recommend` (post-processing of the
model output): swap `best_overall` and `runner_up` iff the runner-up's
annualized net value is strictly greater and its reward is strictly positive. -/
def consistencyPass (query : String) (best runner : AIEntry) : AIEntry × AIEntry :=
  if annualNet query runner > annualNet query best ∧ runner.reward_amount > 0 then
    (runner, best)
  else (best, runner)

/- ### fallback_responses.py -/

/-- An entry of a canned fallback recommendation
(name, reward, rate string, fee). -/
structure FBEntry where
  name : String
  reward_amount : ℚ
  reward_rate : String
  annual_fee : ℚ
deriving DecidableEq

/-- The daily-amortized net value used by both fallback paths:
`reward_amount − annual_fee / 365`. -/
def dailyNet (e : FBEntry) : ℚ := e.reward_amount - e.annual_fee / 365

/-- The reorder step of `ClaudeService._fallback_recommendation` (lines
540–551): swap best and runner-up iff the runner-up's daily-amortized net
value is strictly greater and its reward is strictly positive. -/
def fbSwapPass (best runner : FBEntry) : FBEntry × FBEntry :=
  if dailyNet runner > dailyNet best ∧ runner.reward_amount > 0 then
    (runner, best)
  else (best, runner)

/-- `compute_reward_amount` of `fallback_responses.py` (the identical helper
also appears inside `_fallback_recommendation`): percentage branch via regex
`(\d+(?:\.\d+)?)\s*%\b`, then points/miles branch via `(\d+(?:\.\d+)?)\s*x\b`,
else the flat 2% baseline.  An empty rate string short-circuits to 2%. -/
def compute_reward_amount (rate_str : String) (amount : ℚ) : ℚ :=
  if rate_str = "" then round2 (amount * (2 / 100))
  else
    let s := lower rate_str
    match searchPct s with
    | some p => round2 (amount * (p / 100))
    | none =>
      match searchMult s with
      | some m =>
        if containsTok "point".toList s || containsTok "mile".toList s then
          round2 (amount * m * (15 / 1000))
        else round2 (amount * (2 / 100))
      | none => round2 (amount * (2 / 100))

/-- A canned fallback response: the default parsed amount together with the
three recommendation entries. -/
structure FBResponse where
  amount : ℚ
  best_overall : FBEntry
  runner_up : FBEntry
  alternative : FBEntry
deriving DecidableEq

/-- `FALLBACK_RESPONSES["dining"]` (amount 25.00). -/
def diningResponse : FBResponse :=
  { amount := 25
    best_overall := ⟨"Capital One Savor", 22/100, "4% cash back on dining", 95⟩
    runner_up := ⟨"Chase Sapphire Preferred", 17/100, "3x points on dining", 95⟩
    alternative := ⟨"Citi Double Cash", 11/100, "2% cash back on everything", 0⟩ }

/-- `FALLBACK_RESPONSES["grocery"]` (amount 120.00). -/
def groceryResponse : FBResponse :=
  { amount := 120
    best_overall := ⟨"Amex Blue Cash Preferred", 36/100, "6% cash back on groceries", 95⟩
    runner_up := ⟨"Citi Custom Cash", 30/100, "5% on top category", 0⟩
    alternative := ⟨"Chase Freedom Flex", 24/100, "5% rotating categories", 0⟩ }

/-- `FALLBACK_RESPONSES["travel"]` (amount 2000.00). -/
def travelResponse : FBResponse :=
  { amount := 2000
    best_overall := ⟨"Capital One Venture X", 40, "2x miles on everything", 395⟩
    runner_up := ⟨"Chase Sapphire Reserve", 60, "3x points on travel", 550⟩
    alternative := ⟨"Wells Fargo Autograph", 60, "3x points on travel", 0⟩ }

/-- The generic fallback response built inline in
`get_fallback_recommendation` (amount 100.00). -/
def genericResponse : FBResponse :=
  { amount := 100
    best_overall := ⟨"Citi Double Cash", 2, "2% cash back on everything", 0⟩
    runner_up := ⟨"Chase Freedom Unlimited", 3/2, "1.5% cash back", 0⟩
    alternative := ⟨"Capital One Quicksilver", 3/2, "1.5% cash back", 0⟩ }

/-- `any(word in query_lower for word in pats)`. -/
def anyTok (pats : List String) (cs : List Char) : Bool :=
  pats.any (fun p => containsTok p.toList cs)

/-- The keyword-based response selection at the top of
`get_fallback_recommendation`. -/
def selectResponse (query : String) : FBResponse :=
  let ql := lower query
  if anyTok ["coffee", "starbucks", "restaurant", "dining", "lunch", "dinner"] ql then
    diningResponse
  else if anyTok ["grocery", "whole foods", "walmart", "target", "kroger"] ql then
    groceryResponse
  else if anyTok ["flight", "hotel", "travel", "trip", "vacation"] ql then
    travelResponse
  else genericResponse

/-- The capture group of `re.search(r'\$?([\d,]+\.?\d*)', query)` anchored at
the start: a maximal run of digits and commas, an optional dot followed by a
maximal digit run; commas are stripped before conversion, and a group with no
digit at all makes `float` raise `ValueError` (modelled as `none`). -/
def amountGroup (cs : List Char) : Option ℚ :=
  let p := cs.span (fun c => c.isDigit || c == ',')
  let frac := match p.2 with
    | '.' :: r2 => (r2.span Char.isDigit).1
    | _ => []
  let ds := p.1.filter Char.isDigit
  if ds.isEmpty && frac.isEmpty then none
  else some ((digitsVal ds : ℚ) + fracVal frac)

/-- Leftmost-match search for the amount regex: the first digit-or-comma
character starts the capture group (a leading `$` does not change the group). -/
def amountScan : List Char → Option ℚ
  | [] => none
  | c :: rest =>
    if c.isDigit || c == ',' then amountGroup (c :: rest) else amountScan rest

/-- The amount extracted from the raw query by `get_fallback_recommendation`
(and, with the same regex, by `_fallback_parse`); `none` when the regex does
not match or `float` raises. -/
def extractAmount (query : String) : Option ℚ := amountScan query.toList

/-- The amount `get_fallback_recommendation` ends up using: the extracted one
when available, else the canned response's default. -/
def fallbackAmount (query : String) : ℚ :=
  (extractAmount query).getD (selectResponse query).amount

/-- The per-entry reward recomputation of `get_fallback_recommendation`:
`entry["reward_amount"] = compute_reward_amount(rate_str, amount)`. -/
def fbRecompute (amount : ℚ) (e : FBEntry) : FBEntry :=
  { e with reward_amount := compute_reward_amount e.reward_rate amount }

/-- `get_fallback_recommendation`: select the canned response, override its
amount with the one extracted from the query, and — only when that amount is
strictly positive — recompute every entry's reward from its rate string and
stably re-sort the three tiers descending by daily-amortized net value. -/
def get_fallback_recommendation (query : String) : FBResponse :=
  let resp := selectResponse query
  let amount := fallbackAmount query
  if 0 < amount then
    match sortDesc dailyNet [fbRecompute amount resp.best_overall,
        fbRecompute amount resp.runner_up, fbRecompute amount resp.alternative] with
    | x :: y :: z :: _ =>
      { amount := amount, best_overall := x, runner_up := y, alternative := z }
    | _ => { resp with amount := amount }
  else { resp with amount := amount }

/- ### ClaudeService._fallback_parse -/

/-- `ClaudeService._fallback_parse`: extract the amount with the same regex as
above and pick category/merchant by keyword; the returned dict carries no
`original_query`, so downstream reads of it default to `""`. -/
def fallbackParse (user_input : String) : Transaction :=
  let amount := (extractAmount user_input).getD 0
  let il := lower user_input
  if anyTok ["starbucks", "coffee", "cafe", "restaurant", "dining"] il then
    { merchant := if containsTok "starbucks".toList il then "Starbucks" else "Unknown"
      amount := amount, category := "dining", original_query := "" }
  else if anyTok ["grocery", "whole foods", "walmart", "target"] il then
    { merchant := if containsTok "whole foods".toList il then "Whole Foods" else "Unknown"
      amount := amount, category := "grocery", original_query := "" }
  else if anyTok ["gas", "shell", "exxon", "chevron"] il then
    { merchant := "Unknown", amount := amount, category := "gas", original_query := "" }
  else if anyTok ["flight", "hotel", "travel", "trip", "airline"] il then
    { merchant := "Unknown", amount := amount, category := "travel", original_query := "" }
  else { merchant := "Unknown", amount := amount, category := "other", original_query := "" }

/- ### The seeded demo catalog (`seed_demo_data` in `database.py`) -/

/-- Chase Sapphire Preferred (demo seed). -/
def chaseSapphirePreferred : Card :=
  { id := "chase-sapphire-preferred", name := "Chase Sapphire Preferred", issuer := "Chase"
    annual_fee := 95
    reward_structure := some
      { default_rate := some 1
        categories := [("dining", 3), ("travel", 2), ("streaming", 3), ("online_grocery", 3)]
        reward_type := some "points", point_value := some (15/1000) }
    is_active := true }

/-- American Express Blue Cash Preferred (demo seed). -/
def amexBlueCashPreferred : Card :=
  { id := "amex-blue-cash-preferred", name := "American Express Blue Cash Preferred"
    issuer := "American Express", annual_fee := 95
    reward_structure := some
      { default_rate := some 1
        categories := [("grocery", 6), ("streaming", 6), ("gas", 3), ("transit", 3)]
        reward_type := some "cashback", point_value := none }
    is_active := true }

/-- Citi Double Cash (demo seed). -/
def citiDoubleCash : Card :=
  { id := "citi-double-cash", name := "Citi Double Cash", issuer := "Citi", annual_fee := 0
    reward_structure := some
      { default_rate := some 2, categories := []
        reward_type := some "cashback", point_value := none }
    is_active := true }

/-- Capital One Savor (demo seed). -/
def capitalOneSavor : Card :=
  { id := "capital-one-savor", name := "Capital One Savor", issuer := "Capital One"
    annual_fee := 95
    reward_structure := some
      { default_rate := some 1
        categories := [("dining", 4), ("entertainment", 4), ("grocery", 3), ("streaming", 3)]
        reward_type := some "cashback", point_value := none }
    is_active := true }

/-- Chase Freedom Unlimited (demo seed). -/
def chaseFreedomUnlimited : Card :=
  { id := "chase-freedom-unlimited", name := "Chase Freedom Unlimited", issuer := "Chase"
    annual_fee := 0
    reward_structure := some
      { default_rate := some (3/2)
        categories := [("dining", 3), ("drugstore", 3), ("travel_chase", 5)]
        reward_type := some "cashback", point_value := none }
    is_active := true }

/-- American Express Gold Card (demo seed). -/
def amexGold : Card :=
  { id := "amex-gold", name := "American Express Gold Card", issuer := "American Express"
    annual_fee := 250
    reward_structure := some
      { default_rate := some 1
        categories := [("dining", 4), ("grocery", 4), ("flights", 3)]
        reward_type := some "points", point_value := some (2/100) }
    is_active := true }

/-- The six-card demo catalog in seeding order. -/
def demoCards : List Card :=
  [chaseSapphirePreferred, amexBlueCashPreferred, citiDoubleCash,
   capitalOneSavor, chaseFreedomUnlimited, amexGold]

/- ### Helper lemmas for the best-card fold -/

theorem bestFold_inv (tx : Transaction) :
    ∀ (l : List Card) (acc : Option Card × ℚ),
      (acc = (none, 0) ∨
        ∃ c, acc.1 = some c ∧ acc.2 = calculate_reward c.reward_structure tx ∧ 0 < acc.2) →
      (l.foldl (bestStep tx) acc = (none, 0) ∨
        ∃ c, (l.foldl (bestStep tx) acc).1 = some c ∧
          (l.foldl (bestStep tx) acc).2 = calculate_reward c.reward_structure tx ∧
          0 < (l.foldl (bestStep tx) acc).2)
  | [], acc, h => by simpa using h
  | card :: l, acc, h => by
    rw [List.foldl_cons]
    apply bestFold_inv tx l
    have h0 : 0 ≤ acc.2 := by
      rcases h with h | ⟨c, _, _, hpos⟩
      · rw [h]
      · exact le_of_lt hpos
    unfold bestStep
    by_cases hlt : acc.2 < calculate_reward card.reward_structure tx
    · right
      exact ⟨card, by simp [hlt], by simp [hlt], by simpa [hlt] using lt_of_le_of_lt h0 hlt⟩
    · simpa [hlt] using h

theorem bestFold_zero (tx : Transaction) :
    ∀ l : List Card, (∀ c ∈ l, calculate_reward c.reward_structure tx = 0) →
      l.foldl (bestStep tx) (none, 0) = (none, 0)
  | [], _ => rfl
  | card :: l, h => by
    rw [List.foldl_cons]
    have hstep : bestStep tx (none, 0) card = ((none : Option Card), (0 : ℚ)) := by
      unfold bestStep
      simp [h card (List.mem_cons_self _ _)]
    rw [hstep]
    exact bestFold_zero tx l (fun c hc => h c (List.mem_cons_of_mem _ hc))

/- ### Claims -/

/-- C4, counterexample: for a reward structure whose `categories` mapping
stores rate `0` for the transaction's category (here `dining ↦ 0` with
`default_rate = 2`), `calculate_reward` returns the default-rate reward `2.00`
on a $100 dining transaction, not `0.00` as the claim ("including when the
stored rate is 0") requires: `if category_rate:` is falsy for `0`. -/
theorem C4_counterexample :
    categoryRate ⟨some 2, [("dining", 0)], none, none⟩ "dining" = some 0 ∧
    calculate_reward (some ⟨some 2, [("dining", 0)], none, none⟩)
      ⟨"m", 100, "dining", ""⟩ = 2 ∧
    (2 : ℚ) ≠ 0 := by decide

/-- C4, amended: `calculate_reward` uses the stored category rate only when it
is present and nonzero; a stored rate of `0` falls back to `default_rate`
(default `1.0`), like an absent category; the reward is
`amount × rate/100`, multiplied by `point_value` (default `0.01`) when
`reward_type = "points"`, and rounded to two decimals. -/
theorem C4_rate_selection :
    (∀ (rs : RewardStructure) (tx : Transaction) (r : ℚ),
      categoryRate rs tx.category = some r → r ≠ 0 →
      calculate_reward (some rs) tx = round2 (pointAdjust rs (tx.amount * (r / 100)))) ∧
    (∀ (rs : RewardStructure) (tx : Transaction),
      categoryRate rs tx.category = none →
      calculate_reward (some rs) tx =
        round2 (pointAdjust rs (tx.amount * (rs.default_rate.getD 1 / 100)))) ∧
    (∀ (rs : RewardStructure) (tx : Transaction),
      categoryRate rs tx.category = some 0 →
      calculate_reward (some rs) tx =
        round2 (pointAdjust rs (tx.amount * (rs.default_rate.getD 1 / 100)))) := by
  refine ⟨?_, ?_, ?_⟩
  · intro rs tx r h hr
    simp [calculate_reward, h, hr]
  · intro rs tx h
    simp [calculate_reward, h]
  · intro rs tx h
    simp [calculate_reward, h]

/-- C4, witness: the amended theorem applied to the counterexample input. -/
theorem C4_witness :
    calculate_reward (some ⟨some 2, [("dining", 0)], none, none⟩) ⟨"m", 100, "dining", ""⟩ =
      round2 (pointAdjust ⟨some 2, [("dining", 0)], none, none⟩
        (100 * ((⟨some 2, [("dining", 0)], none, none⟩ : RewardStructure).default_rate.getD 1 / 100))) :=
  C4_rate_selection.2.2 _ ⟨"m", 100, "dining", ""⟩ (by decide)

/-- C5, counterexample: the claim's own example `parse_rate("4% cash back",
100) = 4.00` fails on `compute_reward_amount`, whose `%\b` regex cannot match
a `%` followed by a space, so the string falls to the 2% baseline and yields
`2.00`; and `compare_cards`' parser contradicts the "every other case is the
2% baseline" clause: `"5x rewards"` (an `x` multiplier without point/mile)
yields 5%, not 2%. -/
theorem C5_counterexample :
    compute_reward_amount "4% cash back" 100 = 2 ∧ (2 : ℚ) ≠ 4 ∧
    compareRawReward "5x rewards" 100 = 5 ∧ (5 : ℚ) ≠ 2 := by decide

/-- C5, amended: the two rate parsers differ.  `compare_cards` uses the first
numeric token anywhere in the string as a percentage unless the string
contains `point` or `mile` (then `amount × n × 0.015`), with 2% only when no
numeric token exists — so its values on the three spec examples are
4.00 / 4.50 / 2.00, but a bare multiplier such as `"5x rewards"` is used as a
percentage.  `compute_reward_amount`'s percentage branch requires `%` to be
immediately followed by a word character (regex `%\b`), which ordinary rate
strings fail, so `"4% cash back"` yields the 2% baseline at every amount; its
`x`+point/mile branch and its default behave as claimed (4.50 / 2.00). -/
theorem C5_rate_parsing :
    round2 (compareRawReward "4% cash back" 100) = 4 ∧
    round2 (compareRawReward "3x points" 100) = 9/2 ∧
    round2 (compareRawReward "garbage" 100) = 2 ∧
    (∀ a : ℚ, compareRawReward "5x rewards" a = a * (5 / 100)) ∧
    compute_reward_amount "3x points" 100 = 9/2 ∧
    compute_reward_amount "garbage" 100 = 2 ∧
    (∀ a : ℚ, compute_reward_amount "4% cash back" a = round2 (a * (2 / 100))) := by
  refine ⟨by decide, by decide, by decide, ?_, by decide, by decide, ?_⟩
  · intro a
    have h1 : searchNumber ['5', 'x', ' ', 'r', 'e', 'w', 'a', 'r', 'd', 's'] = some 5 := by
      decide
    have h2 : containsTok ['p', 'o', 'i', 'n', 't'] (lower "5x rewards") = false := by decide
    have h3 : containsTok ['m', 'i', 'l', 'e'] (lower "5x rewards") = false := by decide
    simp [compareRawReward, h1, h2, h3]
  · intro a
    have h1 : searchPct (lower "4% cash back") = none := by decide
    have h2 : searchMult (lower "4% cash back") = none := by decide
    have h3 : ¬("4% cash back" = "") := by decide
    simp [compute_reward_amount, h1, h2, h3]

/-- C6, confirmed: `calculate_financial_impact` reports
`max(0, best_overall.reward_amount − amount × 0.02)` — the surplus over a flat
2% no-fee baseline — formatted as currency; at amount 5.50 and reward 0.22
the value is 0.11 and the string is `"$0.11 more than basic 2% card"`. -/
theorem C6_opportunity_cost :
    (∀ (tx : Transaction) (rec : FIRecommendation) (e : FIEntry),
      rec.best_overall = some e →
      (calculate_financial_impact tx (some rec)).opportunity_cost =
        "$" ++ fmtDollars2 (max 0 (e.reward_amount - tx.amount * (2 / 100))) ++
          " more than basic 2% card") ∧
    max (0 : ℚ) (22/100 - (11/2) * (2 / 100)) = 11/100 ∧
    (calculate_financial_impact ⟨"Starbucks", 11/2, "dining", ""⟩
        (some ⟨some ⟨22/100, 95⟩⟩)).opportunity_cost = "$0.11 more than basic 2% card" := by
  refine ⟨?_, by decide, by decide⟩
  intro tx rec e h
  simp [calculate_financial_impact, h]

/-- C6, witness: the general part of the theorem applied to the 5.50 / 0.22
instance. -/
theorem C6_witness :
    (calculate_financial_impact ⟨"Starbucks", 11/2, "dining", ""⟩
        (some ⟨some ⟨22/100, 95⟩⟩)).opportunity_cost =
      "$" ++ fmtDollars2 (max 0 ((22 : ℚ)/100 - (11/2) * (2 / 100))) ++
        " more than basic 2% card" :=
  C6_opportunity_cost.1 ⟨"Starbucks", 11/2, "dining", ""⟩ ⟨some ⟨22/100, 95⟩⟩ ⟨22/100, 95⟩ rfl

/-- C7, confirmed: `"buying $5.50 coffee at Starbucks"` parses to a $5.50
dining transaction, and against the seeded six-card catalog the best-card
selection returns Capital One Savor with reward 0.22, strictly above every
other catalog card's reward for this transaction. -/
theorem C7_starbucks_best_card :
    fallbackParse "buying $5.50 coffee at Starbucks" =
      ⟨"Starbucks", 11/2, "dining", ""⟩ ∧
    get_best_card_from_portfolio demoCards ⟨"Starbucks", 11/2, "dining", ""⟩ =
      some (capitalOneSavor, 22/100) ∧
    calculate_reward capitalOneSavor.reward_structure ⟨"Starbucks", 11/2, "dining", ""⟩ =
      22/100 ∧
    (∀ c ∈ demoCards, c.name ≠ "Capital One Savor" →
      calculate_reward c.reward_structure ⟨"Starbucks", 11/2, "dining", ""⟩ < 22/100) := by
  decide

/-- C7, witness: the catalog-domination part of the theorem applied to the
Citi Double Cash card. -/
theorem C7_witness :
    calculate_reward citiDoubleCash.reward_structure ⟨"Starbucks", 11/2, "dining", ""⟩ <
      22/100 :=
  C7_starbucks_best_card.2.2.2 citiDoubleCash (by decide) (by decide)

/-- C8, confirmed: both functions are total in the embedding; a malformed
reward structure makes `calculate_reward` return `0.0`, and a missing/empty
recommendation makes `calculate_financial_impact` return the explicit
unavailable-message strings. -/
theorem C8_error_absorption :
    (∀ tx : Transaction, calculate_reward none tx = 0) ∧
    (∀ tx : Transaction, calculate_financial_impact tx none =
      { opportunity_cost := "Unable to calculate without recommendation"
        annual_projection := "Analysis unavailable" }) :=
  ⟨fun _ => rfl, fun _ => rfl⟩

/-- C10, confirmed: the best-card selection returns a card only with a
strictly positive computed reward (the running best starts at 0 and is
replaced only on strict improvement), and when every active card's reward is
zero it returns `none` even though active cards exist. -/
theorem C10_best_card_positive :
    (∀ (cards : List Card) (tx : Transaction) (c : Card) (r : ℚ),
      get_best_card_from_portfolio cards tx = some (c, r) →
      0 < r ∧ r = calculate_reward c.reward_structure tx) ∧
    (∀ (cards : List Card) (tx : Transaction),
      (∀ c ∈ cards, c.is_active = true → calculate_reward c.reward_structure tx = 0) →
      get_best_card_from_portfolio cards tx = none) := by
  constructor
  · intro cards tx c r hres
    have hP := bestFold_inv tx (cards.filter (fun c => c.is_active)) (none, 0) (Or.inl rfl)
    unfold get_best_card_from_portfolio at hres
    rcases hEq : (cards.filter (fun c => c.is_active)).foldl (bestStep tx) (none, 0)
      with ⟨o, q⟩
    rw [hEq] at hres hP
    cases o with
    | none => simp at hres
    | some c2 =>
      simp only at hres
      rcases hP with hco | ⟨c3, h1, h2, h3⟩
      · simp at hco
      · simp only at h1 h2 h3
        rcases Option.some.inj h1 with rfl
        have hcr : (c2, q) = (c, r) := Option.some.inj hres
        have hc : c2 = c := congrArg Prod.fst hcr
        have hr : q = r := congrArg Prod.snd hcr
        subst hc
        subst hr
        exact ⟨h3, h2⟩
  · intro cards tx h
    unfold get_best_card_from_portfolio
    rw [bestFold_zero tx _
      (fun c hc => h c (List.mem_of_mem_filter hc) (List.of_mem_filter hc))]

/-- C10, witness: the theorem applied to the demo catalog — the Starbucks
transaction selects a card with positive reward, and an amount-0 transaction
returns `none` although all six cards are active. -/
theorem C10_witness :
    (0 < (22/100 : ℚ) ∧
      (22/100 : ℚ) = calculate_reward capitalOneSavor.reward_structure
        ⟨"Starbucks", 11/2, "dining", ""⟩) ∧
    get_best_card_from_portfolio demoCards ⟨"m", 0, "dining", ""⟩ = none :=
  ⟨C10_best_card_positive.1 demoCards ⟨"Starbucks", 11/2, "dining", ""⟩
      capitalOneSavor (22/100) (by decide),
    C10_best_card_positive.2 demoCards ⟨"m", 0, "dining", ""⟩ (by decide)⟩

/-- C1, counterexample: `compare_cards` sorts by `reward_amount`, not net
value.  With a $100 transaction and candidates X (3%, no fee; net 3.00) and
Y (3.1%, $95 fee; net 2.84), X's net value exceeds Y's, yet the output places
Y first because its reward (3.10) is larger. -/
theorem C1_counterexample :
    compare_cards [⟨"X", some "3%", 0⟩, ⟨"Y", some "3.1%", 95⟩] ⟨"m", 100, "other", ""⟩ =
      [compareEntry ⟨"m", 100, "other", ""⟩ ⟨"Y", some "3.1%", 95⟩,
       compareEntry ⟨"m", 100, "other", ""⟩ ⟨"X", some "3%", 0⟩] ∧
    (compareEntry ⟨"m", 100, "other", ""⟩ ⟨"X", some "3%", 0⟩).net_value >
      (compareEntry ⟨"m", 100, "other", ""⟩ ⟨"Y", some "3.1%", 95⟩).net_value := by decide

/-- C1, amended: `compare_cards` returns the candidates ordered descending by
`reward_amount` (stable: any two entries in reward order in the input,
including ties, stay in that order), as a permutation of the per-candidate
entries; `net_value` is computed into each entry but is not the sort key. -/
theorem C1_sorted_by_reward :
    ∀ (cards : List CardInfo) (tx : Transaction),
      List.Perm (compare_cards cards tx) (cards.map (compareEntry tx)) ∧
      (compare_cards cards tx).Pairwise (fun x y => y.reward_amount ≤ x.reward_amount) ∧
      (∀ x y : Comparison, List.Sublist [x, y] (cards.map (compareEntry tx)) →
        y.reward_amount ≤ x.reward_amount → List.Sublist [x, y] (compare_cards cards tx)) := by
  intro cards tx
  exact ⟨sortDesc_perm _ _, sortDesc_pairwise _ _, fun x y hsub hle => sortDesc_stable _ hsub hle⟩

/-- C1, witness: the stability part of the theorem applied to two candidates
with equal rewards (both 2% of $50) — their input order is kept. -/
theorem C1_witness :
    List.Sublist
      [compareEntry ⟨"m", 50, "other", ""⟩ ⟨"P", some "2%", 0⟩,
       compareEntry ⟨"m", 50, "other", ""⟩ ⟨"Q", some "2%", 50⟩]
      (compare_cards [⟨"P", some "2%", 0⟩, ⟨"Q", some "2%", 50⟩] ⟨"m", 50, "other", ""⟩) :=
  (C1_sorted_by_reward [⟨"P", some "2%", 0⟩, ⟨"Q", some "2%", 50⟩] ⟨"m", 50, "other", ""⟩).2.2
    _ _ (List.Sublist.refl _) (le_refl _)

/-- C3, counterexample: at frequency 1 the consistency pass subtracts the
full annual fee, not `fee/365`.  For best = {reward 2.00, fee 0} and
runner-up = {reward 3.00, fee 95} the claimed daily-amortized rule demands a
swap (3.00 − 95/365 ≈ 2.74 > 2.00, reward > 0), but the code computes
3.00 − 95 < 2.00 and does not swap. -/
theorem C3_counterexample :
    consistencyPass "" ⟨"A", 2, 0⟩ ⟨"B", 3, 95⟩ = (⟨"A", 2, 0⟩, ⟨"B", 3, 95⟩) ∧
    (3 : ℚ) - 95 / 365 > 2 - 0 / 365 ∧ (0 : ℚ) < 3 := by decide

/-- C3, amended: the consistency pass of `analyze_and_recommend` re-derives
net value as `reward × frequency − annual_fee` at every frequency (the full
fee even for single purchases), and swaps exactly when the runner-up's net
value is strictly greater and its reward is strictly positive (so a
zero-reward runner-up is never promoted); the spec's {2.25, 95} / {2.25, 0}
example still swaps.  The separate reorder in `_fallback_recommendation`
swaps on the daily-amortized `reward − fee/365` with the same guard. -/
theorem C3_consistency_pass :
    (∀ (q : String) (b r : AIEntry),
      annualNet q r > annualNet q b → 0 < r.reward_amount →
      consistencyPass q b r = (r, b)) ∧
    (∀ (q : String) (b r : AIEntry),
      ¬(annualNet q r > annualNet q b ∧ 0 < r.reward_amount) →
      consistencyPass q b r = (b, r)) ∧
    (∀ (q : String) (b r : AIEntry), r.reward_amount = 0 → consistencyPass q b r = (b, r)) ∧
    consistencyPass "" ⟨"best", 9/4, 95⟩ ⟨"runner", 9/4, 0⟩ =
      (⟨"runner", 9/4, 0⟩, ⟨"best", 9/4, 95⟩) ∧
    (∀ b r : FBEntry,
      dailyNet r > dailyNet b → 0 < r.reward_amount → fbSwapPass b r = (r, b)) ∧
    (∀ b r : FBEntry,
      ¬(dailyNet r > dailyNet b ∧ 0 < r.reward_amount) → fbSwapPass b r = (b, r)) := by
  refine ⟨?_, ?_, ?_, by decide, ?_, ?_⟩
  · intro q b r h1 h2
    simp [consistencyPass, h1, h2]
  · intro q b r h
    simp only [consistencyPass, if_neg h]
  · intro q b r h
    simp [consistencyPass, h]
  · intro b r h1 h2
    simp [fbSwapPass, h1, h2]
  · intro b r h
    simp only [fbSwapPass, if_neg h]

/-- C3, witness: the swap and no-swap branches of the theorem at concrete
entries. -/
theorem C3_witness :
    consistencyPass "w" ⟨"b", 1, 95⟩ ⟨"r", 2, 0⟩ = (⟨"r", 2, 0⟩, ⟨"b", 1, 95⟩) ∧
    consistencyPass "w" ⟨"b", 1, 0⟩ ⟨"r", 0, 0⟩ = (⟨"b", 1, 0⟩, ⟨"r", 0, 0⟩) :=
  ⟨C3_consistency_pass.1 "w" ⟨"b", 1, 95⟩ ⟨"r", 2, 0⟩ (by decide) (by decide),
   C3_consistency_pass.2.2.1 "w" ⟨"b", 1, 0⟩ ⟨"r", 0, 0⟩ (by decide)⟩

/-- When the final amount is positive, `get_fallback_recommendation` is the
sorted triple of recomputed entries. -/
theorem fallback_sorted_shape (q : String) (h : 0 < fallbackAmount q) :
    ∃ x y z,
      sortDesc dailyNet
        [fbRecompute (fallbackAmount q) (selectResponse q).best_overall,
         fbRecompute (fallbackAmount q) (selectResponse q).runner_up,
         fbRecompute (fallbackAmount q) (selectResponse q).alternative] = [x, y, z] ∧
      get_fallback_recommendation q =
        { amount := fallbackAmount q, best_overall := x, runner_up := y, alternative := z } := by
  obtain ⟨x, y, z, hs⟩ := sortDesc_three dailyNet
    (fbRecompute (fallbackAmount q) (selectResponse q).best_overall)
    (fbRecompute (fallbackAmount q) (selectResponse q).runner_up)
    (fbRecompute (fallbackAmount q) (selectResponse q).alternative)
  refine ⟨x, y, z, hs, ?_⟩
  simp only [get_fallback_recommendation]
  rw [if_pos h, hs]

/-- Pairwise order on a three-element sorted list, unpacked. -/
theorem pairwise_three {α : Type} (key : α → ℚ) {x y z : α}
    (h : ([x, y, z] : List α).Pairwise (fun a b => key b ≤ key a)) :
    key y ≤ key x ∧ key z ≤ key y := by
  rcases List.pairwise_cons.mp h with ⟨h1, h2⟩
  rcases List.pairwise_cons.mp h2 with ⟨h3, _⟩
  exact ⟨h1 y (List.mem_cons_self y [z]), h3 z (List.mem_cons_self z [])⟩

/-- C2, counterexample: the produced recommendations do not always satisfy
`net(best) ≥ net(runner_up)`, under either net-value formula.  (i) The AI-path
consistency pass never promotes a zero-reward runner-up: with best =
{reward 0.50, fee 365} and runner-up = {reward 0, fee 0} it leaves the pair
unswapped although the runner-up's net value is larger under both the
annualized and the daily-amortized formula.  (ii) The fallback path skips its
reorder when the extracted amount is 0: `"$0 flight"` returns the canned
travel response, whose best (Venture X, net 40 − 395/365) has a smaller daily
net value than its runner-up (Sapphire Reserve, net 60 − 550/365). -/
theorem C2_counterexample :
    (consistencyPass "" ⟨"A", 1/2, 365⟩ ⟨"B", 0, 0⟩ = (⟨"A", 1/2, 365⟩, ⟨"B", 0, 0⟩) ∧
      annualNet "" ⟨"A", 1/2, 365⟩ < annualNet "" ⟨"B", 0, 0⟩ ∧
      (1 : ℚ)/2 - 365/365 < 0 - 0/365) ∧
    (get_fallback_recommendation "$0 flight" =
        { amount := 0, best_overall := travelResponse.best_overall,
          runner_up := travelResponse.runner_up,
          alternative := travelResponse.alternative } ∧
      dailyNet travelResponse.best_overall < dailyNet travelResponse.runner_up) := by decide

/-- C2, amended: there is no single uniform net-value formula.  The AI-path
consistency pass guarantees `annualized net(best) ≥ net(runner_up)`
(`reward × frequency − fee`) only when the runner-up's reward is strictly
positive; `_fallback_recommendation`'s reorder guarantees the same for the
daily-amortized net (`reward − fee/365`) under the same guard; and
`get_fallback_recommendation` guarantees daily-amortized net values
non-increasing across its three tiers whenever the amount it uses is strictly
positive. -/
theorem C2_net_invariant :
    (∀ (q : String) (b r : AIEntry), 0 < r.reward_amount →
      annualNet q (consistencyPass q b r).2 ≤ annualNet q (consistencyPass q b r).1) ∧
    (∀ b r : FBEntry, 0 < r.reward_amount →
      dailyNet (fbSwapPass b r).2 ≤ dailyNet (fbSwapPass b r).1) ∧
    (∀ q : String, 0 < fallbackAmount q →
      dailyNet (get_fallback_recommendation q).runner_up ≤
        dailyNet (get_fallback_recommendation q).best_overall ∧
      dailyNet (get_fallback_recommendation q).alternative ≤
        dailyNet (get_fallback_recommendation q).runner_up) := by
  refine ⟨?_, ?_, ?_⟩
  · intro q b r hr
    unfold consistencyPass
    by_cases h : annualNet q r > annualNet q b ∧ r.reward_amount > 0
    · rw [if_pos h]
      exact le_of_lt h.1
    · rw [if_neg h]
      exact le_of_not_lt (fun hgt => h ⟨hgt, hr⟩)
  · intro b r hr
    unfold fbSwapPass
    by_cases h : dailyNet r > dailyNet b ∧ r.reward_amount > 0
    · rw [if_pos h]
      exact le_of_lt h.1
    · rw [if_neg h]
      exact le_of_not_lt (fun hgt => h ⟨hgt, hr⟩)
  · intro q hq
    obtain ⟨x, y, z, hs, hout⟩ := fallback_sorted_shape q hq
    have hp := sortDesc_pairwise dailyNet
      [fbRecompute (fallbackAmount q) (selectResponse q).best_overall,
       fbRecompute (fallbackAmount q) (selectResponse q).runner_up,
       fbRecompute (fallbackAmount q) (selectResponse q).alternative]
    rw [hs] at hp
    rw [hout]
    exact pairwise_three dailyNet hp

/-- C2, witness: the AI-pass part at a positive-reward runner-up, and the
fallback part at the query `"coffee $100"`. -/
theorem C2_witness :
    annualNet "w" (consistencyPass "w" ⟨"b", 1, 95⟩ ⟨"r", 2, 0⟩).2 ≤
      annualNet "w" (consistencyPass "w" ⟨"b", 1, 95⟩ ⟨"r", 2, 0⟩).1 ∧
    dailyNet (get_fallback_recommendation "coffee $100").runner_up ≤
      dailyNet (get_fallback_recommendation "coffee $100").best_overall :=
  ⟨C2_net_invariant.1 "w" ⟨"b", 1, 95⟩ ⟨"r", 2, 0⟩ (by decide),
   (C2_net_invariant.2.2 "coffee $100" (by decide)).1⟩

/-- C9, confirmed: whenever a strictly positive amount is extracted from the
query, the returned recommendation's three tiers are exactly the selected
canned response's three entries with rewards recomputed from their rate
strings at that amount, reordered so the daily-amortized net value
(`reward − fee/365`) is non-increasing across best, runner-up, alternative,
and the parsed amount is the extracted one. -/
theorem C9_fallback_recompute_and_reorder :
    ∀ (q : String) (a : ℚ), extractAmount q = some a → 0 < a →
      List.Perm
        [(get_fallback_recommendation q).best_overall,
         (get_fallback_recommendation q).runner_up,
         (get_fallback_recommendation q).alternative]
        [fbRecompute a (selectResponse q).best_overall,
         fbRecompute a (selectResponse q).runner_up,
         fbRecompute a (selectResponse q).alternative] ∧
      dailyNet (get_fallback_recommendation q).runner_up ≤
        dailyNet (get_fallback_recommendation q).best_overall ∧
      dailyNet (get_fallback_recommendation q).alternative ≤
        dailyNet (get_fallback_recommendation q).runner_up ∧
      (get_fallback_recommendation q).amount = a := by
  intro q a hx ha
  have hamt : fallbackAmount q = a := by
    simp [fallbackAmount, hx]
  have hq : 0 < fallbackAmount q := by
    rw [hamt]
    exact ha
  obtain ⟨x, y, z, hs, hout⟩ := fallback_sorted_shape q hq
  have hp := sortDesc_pairwise dailyNet
    [fbRecompute (fallbackAmount q) (selectResponse q).best_overall,
     fbRecompute (fallbackAmount q) (selectResponse q).runner_up,
     fbRecompute (fallbackAmount q) (selectResponse q).alternative]
  have hperm := sortDesc_perm dailyNet
    [fbRecompute (fallbackAmount q) (selectResponse q).best_overall,
     fbRecompute (fallbackAmount q) (selectResponse q).runner_up,
     fbRecompute (fallbackAmount q) (selectResponse q).alternative]
  rw [hs] at hp hperm
  rw [hamt] at hperm
  rw [hout, hamt]
  refine ⟨hperm, ?_, ?_, rfl⟩
  · exact (pairwise_three dailyNet hp).1
  · exact (pairwise_three dailyNet hp).2

/-- C9, witness: the theorem at the query `"coffee $100"` (extracted amount
100). -/
theorem C9_witness :
    List.Perm
      [(get_fallback_recommendation "coffee $100").best_overall,
       (get_fallback_recommendation "coffee $100").runner_up,
       (get_fallback_recommendation "coffee $100").alternative]
      [fbRecompute 100 (selectResponse "coffee $100").best_overall,
       fbRecompute 100 (selectResponse "coffee $100").runner_up,
       fbRecompute 100 (selectResponse "coffee $100").alternative] ∧
    dailyNet (get_fallback_recommendation "coffee $100").runner_up ≤
      dailyNet (get_fallback_recommendation "coffee $100").best_overall ∧
    dailyNet (get_fallback_recommendation "coffee $100").alternative ≤
      dailyNet (get_fallback_recommendation "coffee $100").runner_up ∧
    (get_fallback_recommendation "coffee $100").amount = 100 :=
  C9_fallback_recompute_and_reorder "coffee $100" 100 (by decide) (by decide)
